import Mathlib

set_option maxHeartbeats 1000000

/-!
Shallow embedding of the request-admission and cache layer of the repository:
`app/core/rate_limiting.py` (sliding-window rate limiter over a redis sorted
set) and `app/core/cache.py` (TTL-bounded key/value cache with dual-format
serialization).  The redis backing store is modelled explicitly; a store that
raises (`redis` connection errors, caught by the `except` blocks of the
source) is modelled as the `.error` case of `Except Unit`.
-/

/-!
## Rate limiter store model

`RateLimiter.is_allowed` keeps, per key, a redis sorted set whose members are
the strings `str(current_time)` scored by `current_time` (an integer number of
seconds, `int(time.time())`, hence a natural number).  Since `t ↦ str t` is
injective and the score always equals the member's timestamp, the sorted set
for a key is faithfully represented as a `Finset Nat` of timestamps.  The
whole store maps keys to such sets (a missing key is the empty set, matching
redis semantics of ZCARD/ZADD/ZREMRANGEBYSCORE on a missing key).

The `pipe.expire(key, window)` step of the source refreshes the whole-key TTL.
Key-level expiry is observationally redundant in this model: every member's
score is at most the time of the last write, and any read at a time past the
key's would-be expiry evicts all members first (`zremrangebyscore` with bound
`now - window` removes them), so counts and decisions are unchanged whether or
not the key was deleted in between.  The expiry step is therefore not part of
the state.
-/

def Store : Type := String → Finset Nat

/-- Redis `ZREMRANGEBYSCORE key lo hi`: remove every member whose score lies
in the closed interval `[lo, hi]`.  The source calls it with `lo = 0` and
`hi = window_start = now - window`, which may be negative (then nothing is
removed, as in redis). -/
def zremrangebyscore (s : Finset Nat) (lo hi : Int) : Finset Nat :=
  s.filter (fun t => ¬(lo ≤ (t : Int) ∧ (t : Int) ≤ hi))

/-- Redis `ZCARD key`: number of members of the sorted set. -/
def zcard (s : Finset Nat) : Nat := s.card

/-- Redis `ZADD key {str(t): t}`: member identity is the decimal string of
`t`; adding an already-present member merely updates its score (here equal to
the old one), so on this representation it is `insert`. -/
def zadd (s : Finset Nat) (t : Nat) : Finset Nat := insert t s

/-- `RateLimiter.is_allowed(key, limit, window)` of
`app/core/rate_limiting.py`.  `now` stands for `int(time.time())`.  The
pipeline evicts members scored in `[0, now - window]`, counts the remaining
members, unconditionally adds a member for `now`, and allows the request iff
the pre-insertion count is `< limit`.  If the store raises (`except
Exception`), the request is allowed (fail open) and the store is untouched. -/
def RateLimiter.is_allowed (store : Except Unit Store) (key : String)
    (limit window : Int) (now : Nat) : Bool × Except Unit Store :=
  match store with
  | .error e => (true, .error e)
  | .ok s =>
    let window_start : Int := (now : Int) - window
    let afterEvict := zremrangebyscore (s key) 0 window_start
    let current_count := zcard afterEvict
    (decide ((current_count : Int) < limit),
      .ok (Function.update s key (zadd afterEvict now)))

/-- `RateLimiter.get_remaining_requests(key, limit, window)` of
`app/core/rate_limiting.py`: evicts expired members, counts, and returns
`max(0, limit - current_count)`; on a store error it returns `limit`. -/
def RateLimiter.get_remaining_requests (store : Except Unit Store)
    (key : String) (limit window : Int) (now : Nat) :
    Int × Except Unit Store :=
  match store with
  | .error e => (limit, .error e)
  | .ok s =>
    let window_start : Int := (now : Int) - window
    let afterEvict := zremrangebyscore (s key) 0 window_start
    let current_count := zcard afterEvict
    (max 0 ((limit : Int) - (current_count : Int)),
      .ok (Function.update s key afterEvict))

/-- A sequence of `is_allowed` calls on the same key, one per listed call
time, threading the store. -/
def callTimes (store : Except Unit Store) (key : String)
    (limit window : Int) : List Nat → Except Unit Store
  | [] => store
  | t :: ts =>
      callTimes (RateLimiter.is_allowed store key limit window t).2
        key limit window ts

/-- The event set a (non-failed) store holds for a key. -/
def storeAt (store : Except Unit Store) (key : String) : Finset Nat :=
  match store with
  | .error _ => ∅
  | .ok s => s key

/-- The fields of a FastAPI `Request` that `rate_limiting.py` reads:
`request.client.host` (flattened to `host`) and the optional
`request.state.user_id` attribute (`none` models the attribute being absent,
i.e. `getattr(request.state, "user_id", None)` returning `None`). -/
structure Request where
  host : String
  stateUserId : Option Int
deriving DecidableEq

/-- `get_rate_limit_key(request, user_id)` of `app/core/rate_limiting.py`.
Python's `if user_id:` tests truthiness, so both `None` and `0` fall to the
IP branch. -/
def get_rate_limit_key (request : Request) (user_id : Option Int) : String :=
  match user_id with
  | some uid =>
      if uid = 0 then "rate_limit:ip:" ++ request.host
      else "rate_limit:user:" ++ toString uid
  | none => "rate_limit:ip:" ++ request.host

/-- A positional argument of a wrapped endpoint: either a `Request` or any
other value (`isinstance(arg, Request)` is false on it). -/
inductive Arg where
  | req (r : Request)
  | plain (n : Nat)
deriving DecidableEq

/-- The `for arg in args: if isinstance(arg, Request)` scan of the
`rate_limit` wrapper: first `Request` among the positional arguments. -/
def findRequest : List Arg → Option Request
  | [] => none
  | .req r :: _ => some r
  | .plain _ :: rest => findRequest rest

/-- The `detail` payload of the `HTTPException(429)` raised by the
`rate_limit` wrapper on denial. -/
structure RateLimitReject where
  limit : Int
  window : Int
  remaining : Int
  retry_after : Int
deriving DecidableEq

/-- The `rate_limit(limit, window)` decorator's `wrapper` of
`app/core/rate_limiting.py`: scan the positional arguments for a `Request`;
without one, call the wrapped function directly.  Otherwise resolve the key
from `request.state.user_id`, consult the limiter, and on denial compute the
remaining quota and raise (modelled as `.error`).  `func` is the wrapped
endpoint, `now` the current integer time. -/
def rate_limit {α : Type} (limit window : Int) (func : List Arg → α)
    (args : List Arg) (store : Except Unit Store) (now : Nat) :
    Except RateLimitReject α × Except Unit Store :=
  match findRequest args with
  | none => (.ok (func args), store)
  | some r =>
    let key := get_rate_limit_key r r.stateUserId
    let res := RateLimiter.is_allowed store key limit window now
    if res.1 then (.ok (func args), res.2)
    else
      let rem := RateLimiter.get_remaining_requests res.2 key limit window now
      (.error ⟨limit, window, rem.1, window⟩, rem.2)

/-!
## Cache model (`app/core/cache.py`)

Values are modelled by `PVal`, a fragment of Python's value universe wide
enough for the serialization behaviours the layer distinguishes:

* `ofJson j` — values natively representable as structured (JSON) text;
* `pbytes bs` — a `bytes` blob (list of byte values `< 256`).  It is *not*
  natively JSON-serializable, but `json.dumps(value, default=str)` does not
  fail on it: the `default=str` hook replaces it by its `str()` rendering
  (the `repr` text `b'...'`), so the encoder produces the JSON *string* of
  that text;
* `tupleKeyDict k1 k2 v` — a dict with a tuple key `(k1, k2)`.
  `json.dumps` raises `TypeError` on non-string dict keys (the `default`
  hook is not consulted for keys), so this is a value on which the
  structured encoding genuinely fails and the pickle fallback runs.

Stored byte strings are modelled symbolically by `Bytes`: the UTF-8 bytes of
a structured text, a pickle serialization, or the UTF-8 bytes of `str(value)`
(the `serialize=False` path of `set`).  The three forms are pairwise distinct
as real byte strings: pickle (protocol ≥ 2, the default) starts with the byte
`0x80`, which can never be the first byte of valid UTF-8 output, and the
structured text of a value differs from its Python `str()` rendering for the
values modelled here.
-/

/-- Structured (JSON) values.  The cache encodes and decodes a structured
value as a whole and never inspects it, so the model carries the value shapes
the layer's scenarios use: atoms and objects (`jobj "a" (jnum 1)` is
`{"a": 1}`; nesting through `jobj` covers deeper objects).  Arrays and
multi-entry objects would be threaded through identically and are omitted
only because equality deriving does not handle nested `List` recursion. -/
inductive JVal where
  | jnull
  | jbool (b : Bool)
  | jnum (n : Int)
  | jstr (s : String)
  | jobj (k : String) (v : JVal)
deriving DecidableEq

/-- The modelled fragment of Python values handled by the cache. -/
inductive PVal where
  | ofJson (j : JVal)
  | pbytes (bs : List Nat)
  | tupleKeyDict (k1 k2 : Int) (v : JVal)
deriving DecidableEq

/-- One byte of Python's `repr` of a `bytes` object: printable ASCII other
than the quote and the backslash renders as itself, everything else as a
`\xHH` escape (the `\t`, `\n`, `\r` special cases of CPython are subsumed
into `\xHH` here; no claim depends on the exact text). -/
def pyReprByte (b : Nat) : String :=
  if 32 ≤ b ∧ b ≤ 126 ∧ b ≠ 39 ∧ b ≠ 92 then
    String.singleton (Char.ofNat b)
  else
    "\\x" ++ String.singleton (Nat.digitChar (b / 16 % 16)) ++
      String.singleton (Nat.digitChar (b % 16))

/-- Python's `str()` of a `bytes` object: `b'...'`. -/
def pyReprBytes (bs : List Nat) : String :=
  let q := String.singleton (Char.ofNat 39)
  "b" ++ q ++ String.join (bs.map pyReprByte) ++ q

/-- A byte string held in the cache store, kept symbolic. -/
inductive Bytes where
  | utf8OfJsonText (j : JVal)
  | pickleBytes (v : PVal)
  | strEncode (v : PVal)
deriving DecidableEq

/-- `json.dumps(value, default=str)`: structured values encode to their
text; a `bytes` blob is rescued by the `default=str` hook and encodes to the
JSON string of its `repr`; a tuple-keyed dict raises `TypeError`. -/
def jsonDumps : PVal → Except Unit Bytes
  | .ofJson j => .ok (.utf8OfJsonText j)
  | .pbytes bs => .ok (.utf8OfJsonText (.jstr (pyReprBytes bs)))
  | .tupleKeyDict _ _ _ => .error ()

/-- `pickle.dumps(value)`: total on the modelled fragment. -/
def pickleDumps (v : PVal) : Bytes := .pickleBytes v

/-- `json.loads` applied to the UTF-8 text `str(v)`.  Python's `str()` of an
integer is numeric text and parses back to that number; the `str()` renderings
of the other modelled shapes (unquoted strings, `True`/`None` capitalization,
single-quoted container reprs, `b'...'` bytes reprs, tuple-keyed dict reprs)
are not valid structured text.  (Shapes such as a list whose atoms are all
numbers would also reparse in Python; they are conservatively modelled as
failing — no claim exercises them.) -/
def strJsonLoads : PVal → Except Unit PVal
  | .ofJson (.jnum n) => .ok (.ofJson (.jnum n))
  | _ => .error ()

/-- `json.loads(value.decode("utf-8"))`: structured text decodes to its
value; pickle bytes start with `0x80` and fail UTF-8 decoding
(`UnicodeDecodeError`); `str()`-encoded bytes decode but usually do not
parse (see `strJsonLoads`). -/
def jsonLoads : Bytes → Except Unit PVal
  | .utf8OfJsonText j => .ok (.ofJson j)
  | .pickleBytes _ => .error ()
  | .strEncode v => strJsonLoads v

/-- `pickle.loads(value)`: inverts `pickle.dumps`; on anything else raises
`UnpicklingError` (structured text and `str()` renderings are not valid
pickle streams). -/
def pickleLoads : Bytes → Except Unit PVal
  | .pickleBytes v => .ok v
  | _ => .error ()

/-- Whether `value.decode("utf-8")` succeeds: true for text forms, false for
pickle bytes (leading `0x80` is not valid UTF-8). -/
def utf8Decodable : Bytes → Bool
  | .utf8OfJsonText _ => true
  | .pickleBytes _ => false
  | .strEncode _ => true

/-- The cache store: an association list from key to stored bytes paired with
the absolute expiry deadline in seconds (`SETEX` at time `t` with TTL `d`
yields deadline `t + d`); an entry is alive at `now` iff `now < deadline`.
An association list (rather than a function) because `clear_pattern`
enumerates keys. -/
def CStore : Type := List (String × Bytes × Nat)

/-- Redis `GET key` at time `now`: the stored bytes if the key exists and has
not expired. -/
def redisGet (st : CStore) (key : String) (now : Nat) : Option Bytes :=
  match st.find? (fun e => e.1 = key) with
  | some (_, b, d) => if now < d then some b else none
  | none => none

/-- Store a key (overwriting any previous entry). -/
def redisSetex (st : CStore) (key : String) (b : Bytes) (deadline : Nat) :
    CStore :=
  (key, b, deadline) :: st.filter (fun e => ¬(e.1 = key))

/-- Remove a key. -/
def redisDel (st : CStore) (key : String) : CStore :=
  st.filter (fun e => ¬(e.1 = key))

/-- The glob patterns this codebase passes to redis `KEYS` are either literal
keys or a literal prefix followed by `*`; only those are modelled. -/
def matchesGlob (pattern key : String) : Bool :=
  if pattern.endsWith "*" then key.startsWith (pattern.dropRight 1)
  else key = pattern

/-- Redis `KEYS pattern` at time `now`: the matching, unexpired keys. -/
def redisKeys (st : CStore) (pattern : String) (now : Nat) : List String :=
  (st.filter (fun e => matchesGlob pattern e.1 && decide (now < e.2.2))).map
    (fun e => e.1)

/-- `ttl = ttl or self.default_ttl` of `CacheManager.set`: Python `or` takes
the default when `ttl` is `None` or the falsy `0`. -/
def effTtl (ttl : Option Nat) (default_ttl : Nat) : Nat :=
  match ttl with
  | some t => if t = 0 then default_ttl else t
  | none => default_ttl

/-- `CacheManager.get(key, deserialize=True)` of `app/core/cache.py` at time
`now`.  On a store error, or when the key is absent/expired, returns `none`.
With `deserialize`, tries `json.loads` first; on `JSONDecodeError` or
`UnicodeDecodeError` falls back to `pickle.loads`; a pickle failure escapes
the inner handler and is swallowed by the outer `except Exception`, which
also yields `none`.  Without `deserialize` the call returns
`value.decode("utf-8")` (the right summand carries the bytes whose decoded
text Python would return); a decode failure is again swallowed by the outer
handler. -/
def CacheManager.get (store : Except Unit CStore) (key : String)
    (deserialize : Bool) (now : Nat) : Option (PVal ⊕ Bytes) :=
  match store with
  | .error _ => none
  | .ok st =>
    match redisGet st key now with
    | none => none
    | some b =>
      if deserialize then
        match jsonLoads b with
        | .ok v => some (.inl v)
        | .error _ =>
          match pickleLoads b with
          | .ok v => some (.inl v)
          | .error _ => none
      else
        if utf8Decodable b then some (.inr b) else none

/-- `CacheManager.set(key, value, ttl, serialize=True)` of
`app/core/cache.py` at time `now`, with the instance's `default_ttl`.  With
`serialize`, tries `json.dumps(value, default=str)` and falls back to
`pickle.dumps` on `TypeError`/`ValueError`; without it, stores
`str(value).encode("utf-8")`.  Then `SETEX` with `ttl or default_ttl`,
returning `True`.  A store error degrades to `False`. -/
def CacheManager.set (store : Except Unit CStore) (key : String)
    (value : PVal) (ttl : Option Nat) (serialize : Bool)
    (default_ttl : Nat) (now : Nat) : Bool × Except Unit CStore :=
  match store with
  | .error e => (false, .error e)
  | .ok st =>
    let serialized_value : Bytes :=
      if serialize then
        match jsonDumps value with
        | .ok b => b
        | .error _ => pickleDumps value
      else
        .strEncode value
    let t := effTtl ttl default_ttl
    (true, .ok (redisSetex st key serialized_value (now + t)))

/-- `CacheManager.delete(key)`: `bool(self.redis.delete(key))` — true iff the
key existed (unexpired); the entry is removed either way.  A store error
degrades to `false`. -/
def CacheManager.delete (store : Except Unit CStore) (key : String)
    (now : Nat) : Bool × Except Unit CStore :=
  match store with
  | .error e => (false, .error e)
  | .ok st =>
    ((redisGet st key now).isSome, .ok (redisDel st key))

/-- `CacheManager.exists(key)`: `bool(self.redis.exists(key))`; a store error
degrades to `false`. -/
def CacheManager.key_exists (store : Except Unit CStore) (key : String)
    (now : Nat) : Bool :=
  match store with
  | .error _ => false
  | .ok st => (redisGet st key now).isSome

/-- `CacheManager.clear_pattern(pattern)`: enumerate matching keys, bulk
delete them, return the deleted count; `0` when nothing matches or the store
errors. -/
def CacheManager.clear_pattern (store : Except Unit CStore)
    (pattern : String) (now : Nat) : Nat × Except Unit CStore :=
  match store with
  | .error e => (0, .error e)
  | .ok st =>
    let keys := redisKeys st pattern now
    if keys.isEmpty then (0, .ok st)
    else (keys.length, .ok (st.filter (fun e => ¬(e.1 ∈ keys))))

/-- `CacheManager.get_or_set(key, factory_func, ttl)`: return the cached
value when present, else compute the value (`factory` stands for the result
of `factory_func(*args, **kwargs)`), store it, and return it. -/
def CacheManager.get_or_set (store : Except Unit CStore) (key : String)
    (factory : PVal) (ttl : Option Nat) (default_ttl : Nat) (now : Nat) :
    (PVal ⊕ Bytes) × Except Unit CStore :=
  match CacheManager.get store key true now with
  | some v => (v, store)
  | none =>
    let res := CacheManager.set store key factory ttl true default_ttl now
    (.inl factory, res.2)

/-- The bytes a (non-failed) store holds for a key, expiry ignored. -/
def storedBytes (store : Except Unit CStore) (key : String) : Option Bytes :=
  match store with
  | .error _ => none
  | .ok st => (st.find? (fun e => e.1 = key)).map (fun e => e.2.1)

/-- A store with no events (every key maps to the empty sorted set). -/
def emptyStore : Store := fun _ => ∅

/-- Eviction with a bound below every member removes nothing. -/
theorem zrem_eq_self (s : Finset Nat) (hi : Int)
    (h : ∀ t ∈ s, hi < (t : Int)) : zremrangebyscore s 0 hi = s := by
  apply Finset.filter_true_of_mem
  intro x hx
  have := h x hx
  omega

/-- Eviction with a bound at or above every member removes everything. -/
theorem zrem_eq_empty (s : Finset Nat) (hi : Int)
    (h : ∀ t ∈ s, (t : Int) ≤ hi) : zremrangebyscore s 0 hi = ∅ := by
  apply Finset.filter_false_of_mem
  intro x hx
  have := h x hx
  omega

/-- Running `is_allowed` at each time of a list of call times that all lie in
the span `[S, S + W)` never evicts anything (every member also lies in the
span, hence above every eviction bound), so the final event set for the key
is the initial one united with the set of distinct call times. -/
theorem callTimes_span (key : String) (L W : Int) (S : Nat) :
    ∀ (ts : List Nat) (st : Store),
      (∀ t ∈ ts, S ≤ t ∧ (t : Int) < (S : Int) + W) →
      (∀ x ∈ st key, S ≤ x ∧ (x : Int) < (S : Int) + W) →
      callTimes (.ok st) key L W ts
        = .ok (Function.update st key (st key ∪ ts.toFinset)) := by
  intro ts
  induction ts with
  | nil =>
    intro st _ _
    simp [callTimes, Function.update_eq_self]
  | cons t rest ih =>
    intro st hts hst
    have hspan_t := hts t (List.mem_cons_self t rest)
    have hevict : zremrangebyscore (st key) 0 ((t : Int) - W) = st key := by
      apply zrem_eq_self
      intro x hx
      have := hst x hx
      omega
    have hstep : (RateLimiter.is_allowed (.ok st) key L W t).2
        = .ok (Function.update st key (insert t (st key))) := by
      simp [RateLimiter.is_allowed, hevict, zadd]
    rw [callTimes, hstep,
      ih (Function.update st key (insert t (st key)))
        (fun x hx => hts x (List.mem_cons_of_mem t hx))
        (by
          intro x hx
          rw [Function.update_same] at hx
          rcases Finset.mem_insert.mp hx with h | h
          · subst h; exact hspan_t
          · exact hst x h)]
    simp [Function.update_idem, Function.update_same, List.toFinset_cons,
      Finset.insert_union, Finset.union_insert]

/-- Claim C1, amended.  Part 1: with limit `L` and window `W`, after calls at
distinct integer seconds within a `W`-second span `[S, S + W)` amounting to at
least `L` distinct event timestamps, any further call within that same span is
denied.  Part 2: a call made at least `W + 1` seconds after every recorded
event for the key (denied attempts are recorded too) is allowed, because all
events have aged out of the window. -/
theorem C1_theorem :
    (∀ (key : String) (L W : Int) (S : Nat) (ts : List Nat) (u : Nat),
      (∀ t ∈ ts, S ≤ t ∧ (t : Int) < (S : Int) + W) →
      S ≤ u → (u : Int) < (S : Int) + W →
      L ≤ (ts.toFinset.card : Int) →
      (RateLimiter.is_allowed (callTimes (.ok emptyStore) key L W ts)
        key L W u).1 = false)
    ∧
    (∀ (st : Store) (key : String) (L W : Int) (u : Nat),
      1 ≤ L →
      (∀ t ∈ st key, (t : Int) + W + 1 ≤ (u : Int)) →
      (RateLimiter.is_allowed (.ok st) key L W u).1 = true) := by
  constructor
  · intro key L W S ts u hts hu1 hu2 hL
    rw [callTimes_span key L W S ts emptyStore hts
      (by intro x hx; simp [emptyStore] at hx)]
    have hset : Function.update emptyStore key (emptyStore key ∪ ts.toFinset)
        key = ts.toFinset := by
      rw [Function.update_same]
      simp [emptyStore]
    have hevict : zremrangebyscore ts.toFinset 0 ((u : Int) - W)
        = ts.toFinset := by
      apply zrem_eq_self
      intro x hx
      have := hts x (List.mem_toFinset.mp hx)
      omega
    simp only [RateLimiter.is_allowed, hset, hevict, zcard]
    simp only [decide_eq_false_iff_not, not_lt]
    exact hL
  · intro st key L W u hL hall
    have hevict : zremrangebyscore (st key) 0 ((u : Int) - W) = ∅ := by
      apply zrem_eq_empty
      intro t ht
      have := hall t ht
      omega
    simp only [RateLimiter.is_allowed, hevict, zcard, Finset.card_empty]
    simp only [decide_eq_true_eq]
    omega

/-- Claim C1 as stated is false on the code, at two concrete inputs.
First: limit 2, window 60, three calls at second 0 — two calls have occurred
within the span, yet the third (the `(L+1)`-th) is *allowed*, because the
member identity `str(current_time)` deduplicates same-second events.
Second: limit 1, window 3 — a call at second 0 is allowed, a call at second 2
is denied, and the call at second 4 (= `W + 1` seconds after the first event,
after a prior denial) is *denied*, because the denied call at second 2 also
recorded an event that is still inside the window. -/
theorem C1_counterexample :
    (RateLimiter.is_allowed (callTimes (.ok emptyStore) "k" 2 60 [0, 0])
      "k" 2 60 0).1 = true
    ∧ (RateLimiter.is_allowed (.ok emptyStore) "k" 1 3 0).1 = true
    ∧ (RateLimiter.is_allowed (callTimes (.ok emptyStore) "k" 1 3 [0])
      "k" 1 3 2).1 = false
    ∧ (RateLimiter.is_allowed (callTimes (.ok emptyStore) "k" 1 3 [0, 2])
      "k" 1 3 4).1 = false := by
  refine ⟨?_, ?_, ?_, ?_⟩ <;> decide

/-- Witness for `C1_theorem` at concrete inputs: calls at seconds 0 and 1
with limit 2, window 60 make the next call at second 1 denied; and with one
event at second 0, limit 1, window 3, a call at second 4 is allowed. -/
theorem C1_witness :
    (RateLimiter.is_allowed (callTimes (.ok emptyStore) "k" 2 60 [0, 1])
      "k" 2 60 1).1 = false
    ∧ (RateLimiter.is_allowed (.ok (fun _ => ({0} : Finset Nat)))
      "k" 1 3 4).1 = true :=
  ⟨C1_theorem.1 "k" 2 60 0 [0, 1] 1 (by decide) (by decide) (by decide)
      (by decide),
    C1_theorem.2 (fun _ => ({0} : Finset Nat)) "k" 1 3 4 (by decide)
      (by decide)⟩

/-- Claim C2.  Part 1: every successful `is_allowed` call leaves a member for
`now` in the key's score-set — also when it denies — and the returned decision
equals the comparison of the member count taken after eviction but before that
insertion against the limit.  Part 2: with limit 1 and window 60 on a fresh
key, the first call is allowed, an immediate second call is denied, and
`get_remaining_requests` after the second call returns 0. -/
theorem C2_theorem :
    (∀ (st : Store) (key : String) (L W : Int) (now : Nat),
      now ∈ storeAt (RateLimiter.is_allowed (.ok st) key L W now).2 key
      ∧ (RateLimiter.is_allowed (.ok st) key L W now).1
        = decide
          ((zcard (zremrangebyscore (st key) 0 ((now : Int) - W)) : Int) < L))
    ∧
    (∀ t : Nat,
      (RateLimiter.is_allowed (.ok emptyStore) "k" 1 60 t).1 = true
      ∧ (RateLimiter.is_allowed (callTimes (.ok emptyStore) "k" 1 60 [t])
          "k" 1 60 t).1 = false
      ∧ (RateLimiter.get_remaining_requests
          (callTimes (.ok emptyStore) "k" 1 60 [t, t]) "k" 1 60 t).1 = 0) := by
  constructor
  · intro st key L W now
    constructor
    · simp [storeAt, RateLimiter.is_allowed, Function.update_same, zadd]
    · rfl
  · intro t
    have hkeep : zremrangebyscore ({t} : Finset Nat) 0 ((t : Int) - 60)
        = {t} := by
      apply zrem_eq_self
      intro x hx
      simp at hx
      omega
    have hstep : (RateLimiter.is_allowed (.ok emptyStore) "k" 1 60 t).2
        = .ok (Function.update emptyStore "k" {t}) := by
      simp [RateLimiter.is_allowed, emptyStore, zremrangebyscore, zadd]
    have hstep2 : (RateLimiter.is_allowed
        (.ok (Function.update emptyStore "k" {t})) "k" 1 60 t).2
        = .ok (Function.update emptyStore "k" {t}) := by
      simp only [RateLimiter.is_allowed, Function.update_same]
      rw [hkeep]
      simp [zadd, Function.update_idem]
    have h1 : callTimes (.ok emptyStore) "k" 1 60 [t]
        = .ok (Function.update emptyStore "k" {t}) := by
      simp only [callTimes, hstep]
    have h2 : callTimes (.ok emptyStore) "k" 1 60 [t, t]
        = .ok (Function.update emptyStore "k" {t}) := by
      simp only [callTimes, hstep, hstep2]
    refine ⟨?_, ?_, ?_⟩
    · simp [RateLimiter.is_allowed, emptyStore, zremrangebyscore, zcard]
    · rw [h1]
      simp [RateLimiter.is_allowed, Function.update_same, hkeep, zcard]
    · rw [h2]
      simp [RateLimiter.get_remaining_requests, Function.update_same, hkeep,
        zcard]

/-- Claim C3: when the store raises, `is_allowed` returns `true` (fail open)
and `get_remaining_requests` returns the full configured limit, neither
propagating the error. -/
theorem C3_theorem : ∀ (key : String) (L W : Int) (now : Nat),
    RateLimiter.is_allowed (.error ()) key L W now = (true, .error ())
    ∧ RateLimiter.get_remaining_requests (.error ()) key L W now
      = (L, .error ()) := by
  intro key L W now
  exact ⟨rfl, rfl⟩

/-- One `is_allowed` step at a fixed second is idempotent on the event set:
evicting again removes nothing new and re-adding the same member
`str(current_time)` is a no-op. -/
theorem zadd_zrem_idem (S : Finset Nat) (W : Int) (now : Nat) (hW : 0 < W) :
    zadd (zremrangebyscore (zadd (zremrangebyscore S 0 ((now : Int) - W)) now)
        0 ((now : Int) - W)) now
      = zadd (zremrangebyscore S 0 ((now : Int) - W)) now := by
  unfold zadd zremrangebyscore
  rw [Finset.filter_insert]
  have hp : ¬(0 ≤ (now : Int) ∧ (now : Int) ≤ (now : Int) - W) := by omega
  rw [if_pos hp, Finset.filter_filter]
  simp

/-- Repeating `is_allowed` within one integer second is absorbed after the
first call: the stores agree from the first repetition on. -/
theorem callTimes_replicate (key : String) (L W : Int) (now : Nat)
    (hW : 0 < W) :
    ∀ (n : Nat) (st : Store),
      callTimes (.ok st) key L W (List.replicate (n + 1) now)
        = callTimes (.ok st) key L W [now] := by
  intro n
  induction n with
  | zero => intro st; rfl
  | succ m ih =>
    intro st
    have hrep : List.replicate (m + 1 + 1) now
        = now :: List.replicate (m + 1) now := rfl
    have hstep : (RateLimiter.is_allowed (.ok st) key L W now).2
        = .ok (Function.update st key
          (zadd (zremrangebyscore (st key) 0 ((now : Int) - W)) now)) := rfl
    rw [hrep, callTimes, hstep, ih]
    show callTimes (RateLimiter.is_allowed (.ok st) key L W now).2
        key L W [now] = callTimes (.ok st) key L W [now]
    simp only [callTimes, RateLimiter.is_allowed, Function.update_same,
      Function.update_idem]
    rw [zadd_zrem_idem _ _ _ hW]

/-- Claim C4: with a positive window, `n + 1` `is_allowed` calls on the same
key within the same integer second leave exactly the state one call leaves
(the member `str(current_time)` is overwritten, not duplicated); on a fresh
key the event set is `{now}`, of size 1 — not `n + 1`. -/
theorem C4_theorem (st : Store) (key : String) (L W : Int) (now n : Nat)
    (hW : 0 < W) :
    callTimes (.ok st) key L W (List.replicate (n + 1) now)
        = callTimes (.ok st) key L W [now]
    ∧ storeAt (callTimes (.ok emptyStore) key L W
        (List.replicate (n + 1) now)) key = {now}
    ∧ (storeAt (callTimes (.ok emptyStore) key L W
        (List.replicate (n + 1) now)) key).card = 1 := by
  have hone : storeAt (callTimes (.ok emptyStore) key L W [now]) key
      = {now} := by
    simp [callTimes, RateLimiter.is_allowed, storeAt, emptyStore,
      zremrangebyscore, zadd, Function.update_same]
  refine ⟨callTimes_replicate key L W now hW n st, ?_, ?_⟩
  · rw [callTimes_replicate key L W now hW n emptyStore]
    exact hone
  · rw [callTimes_replicate key L W now hW n emptyStore, hone]
    simp

/-- Witness for `C4_theorem`: five calls at second 3 with limit 5, window 60
on a fresh key leave the same store as one call, and the event set is `{3}`
of size 1. -/
theorem C4_witness :
    callTimes (.ok emptyStore) "k" 5 60 (List.replicate 5 3)
        = callTimes (.ok emptyStore) "k" 5 60 [3]
    ∧ storeAt (callTimes (.ok emptyStore) "k" 5 60
        (List.replicate 5 3)) "k" = {3}
    ∧ (storeAt (callTimes (.ok emptyStore) "k" 5 60
        (List.replicate 5 3)) "k").card = 1 :=
  C4_theorem emptyStore "k" 5 60 3 4 (by decide)

/-- Claim C5 as stated is false on the code at a concrete input: the raw
binary blob `b"\x01\x02"` is *not* stored via the binary-safe fallback —
`json.dumps(value, default=str)` succeeds on it by stringifying the blob, so
what is stored is the structured text of the string `repr` — and a subsequent
`get` returns that string, not a value equal to the original blob. -/
theorem C5_counterexample :
    storedBytes (CacheManager.set (.ok []) "k" (.pbytes [1, 2]) none true
        3600 0).2 "k"
      = some (.utf8OfJsonText (.jstr (pyReprBytes [1, 2])))
    ∧ storedBytes (CacheManager.set (.ok []) "k" (.pbytes [1, 2]) none true
        3600 0).2 "k"
      ≠ some (pickleDumps (.pbytes [1, 2]))
    ∧ CacheManager.get (CacheManager.set (.ok []) "k" (.pbytes [1, 2]) none
        true 3600 0).2 "k" true 0
      ≠ some (.inl (.pbytes [1, 2])) := by
  refine ⟨?_, ?_, ?_⟩ <;> decide

/-- Claim C5, amended: a value on which the structured encoding genuinely
fails (for example a tuple-keyed dict — not a raw bytes blob, which the
encoder's `default=str` hook stringifies instead) is stored via the
binary-safe pickle fallback, and a subsequent `get` with deserialization
enabled returns a value equal to the original: the fallback path round-trips
on both `set` and `get`. -/
theorem C5_theorem (v : PVal) (key : String) (st : CStore)
    (default_ttl now : Nat) (henc : jsonDumps v = .error ())
    (httl : 0 < default_ttl) :
    CacheManager.get (CacheManager.set (.ok st) key v none true default_ttl
        now).2 key true now
      = some (.inl v) := by
  simp [CacheManager.set, CacheManager.get, henc, pickleDumps, effTtl,
    redisSetex, redisGet, jsonLoads, pickleLoads, List.find?, httl]

/-- Witness for `C5_theorem`: the tuple-keyed dict round-trips through the
pickle fallback. -/
theorem C5_witness :
    jsonDumps (.tupleKeyDict 1 2 .jnull) = .error ()
    ∧ CacheManager.get (CacheManager.set (.ok []) "k"
        (.tupleKeyDict 1 2 .jnull) none true 3600 0).2 "k" true 0
      = some (.inl (.tupleKeyDict 1 2 .jnull)) :=
  ⟨rfl, C5_theorem (.tupleKeyDict 1 2 .jnull) "k" [] 3600 0 rfl (by decide)⟩

/-- Claim C6 as stated is false on the code at a concrete input: on the
tuple-keyed dict the structured encoding fails, and what is stored is the
pickle serialization of the value, which is not the raw string encoding
`str(value).encode("utf-8")` (that encoding is taken only when
`serialize=False`; as real byte strings the two differ — pickle output
starts with the byte `0x80`, which no UTF-8 text starts with). -/
theorem C6_counterexample :
    jsonDumps (.tupleKeyDict 1 2 .jnull) = .error ()
    ∧ storedBytes (CacheManager.set (.ok []) "k" (.tupleKeyDict 1 2 .jnull)
        none true 3600 0).2 "k"
      = some (.pickleBytes (.tupleKeyDict 1 2 .jnull))
    ∧ (Bytes.pickleBytes (.tupleKeyDict 1 2 .jnull)
      ≠ .strEncode (.tupleKeyDict 1 2 .jnull)) := by
  exact ⟨rfl, by decide, by decide⟩

/-- Claim C6, amended: `set` with serialization enabled first attempts the
structured (JSON) encoding, and when that encoding fails it stores the
binary-safe pickle serialization of the value instead (the raw string
encoding of the value is used only when serialization is disabled). -/
theorem C6_theorem (v : PVal) (key : String) (st : CStore) (ttl : Option Nat)
    (default_ttl now : Nat) (henc : jsonDumps v = .error ()) :
    storedBytes (CacheManager.set (.ok st) key v ttl true default_ttl
        now).2 key
      = some (pickleDumps v) := by
  simp [CacheManager.set, henc, storedBytes, redisSetex, List.find?]

/-- Witness for `C6_theorem` at the tuple-keyed dict. -/
theorem C6_witness :
    storedBytes (CacheManager.set (.ok []) "k" (.tupleKeyDict 1 2 .jnull)
        none true 3600 0).2 "k"
      = some (pickleDumps (.tupleKeyDict 1 2 .jnull)) :=
  C6_theorem (.tupleKeyDict 1 2 .jnull) "k" [] none 3600 0 rfl

/-- Claim C7: a structured value set with `ttl=5` is returned unchanged by an
immediate `get`, and once the TTL has elapsed (5 or more seconds later) `get`
returns absent. -/
theorem C7_theorem (j : JVal) (key : String) (t e default_ttl : Nat) :
    CacheManager.get (CacheManager.set (.ok []) key (.ofJson j) (some 5) true
        default_ttl t).2 key true t
      = some (.inl (.ofJson j))
    ∧ (5 ≤ e →
      CacheManager.get (CacheManager.set (.ok []) key (.ofJson j) (some 5)
          true default_ttl t).2 key true (t + e)
        = none) := by
  constructor
  · simp [CacheManager.set, CacheManager.get, jsonDumps, effTtl, redisSetex,
      redisGet, jsonLoads, List.find?]
  · intro he
    have hcond : ¬(t + e < t + 5) := by omega
    simp [CacheManager.set, CacheManager.get, jsonDumps, effTtl, redisSetex,
      redisGet, List.find?, hcond]

/-- Witness for `C7_theorem`: `set("k", {"a": 1}, ttl=5)` at second 100, an
immediate `get` returns `{"a": 1}`, and a `get` at second 105 returns
absent. -/
theorem C7_witness :
    CacheManager.get (CacheManager.set (.ok []) "k"
        (.ofJson (.jobj "a" (.jnum 1))) (some 5) true 3600 100).2 "k" true 100
      = some (.inl (.ofJson (.jobj "a" (.jnum 1))))
    ∧ CacheManager.get (CacheManager.set (.ok []) "k"
        (.ofJson (.jobj "a" (.jnum 1))) (some 5) true 3600 100).2 "k" true 105
      = none :=
  ⟨(C7_theorem (.jobj "a" (.jnum 1)) "k" 100 5 3600).1,
    (C7_theorem (.jobj "a" (.jnum 1)) "k" 100 5 3600).2 (by decide)⟩

/-- Claim C8: cache operations propagate neither store errors nor encoding
errors.  On a raised store error, `get` degrades to absent, `set`, `delete`
and `exists` to `false`, `clear_pattern` to `0`, and `get_or_set` still
returns the computed value; and a stored value that fails both the structured
and the pickle decoding (an encoding error on read) degrades to absent
instead of raising. -/
theorem C8_theorem (key pattern : String) (v factory : PVal)
    (ttl : Option Nat) (ser deser : Bool) (default_ttl now : Nat) :
    CacheManager.get (.error ()) key deser now = none
    ∧ CacheManager.set (.error ()) key v ttl ser default_ttl now
      = (false, .error ())
    ∧ CacheManager.delete (.error ()) key now = (false, .error ())
    ∧ CacheManager.key_exists (.error ()) key now = false
    ∧ CacheManager.clear_pattern (.error ()) pattern now = (0, .error ())
    ∧ CacheManager.get_or_set (.error ()) key factory ttl default_ttl now
      = (.inl factory, .error ())
    ∧ CacheManager.get
        (.ok [(key, .strEncode (.ofJson (.jstr "x")), now + 1)]) key true now
      = none := by
  refine ⟨rfl, rfl, rfl, rfl, rfl, rfl, ?_⟩
  simp [CacheManager.get, redisGet, List.find?, jsonLoads, strJsonLoads,
    pickleLoads]

/-- The subject scope and the network-origin scope can never produce the same
key: the two scope prefixes differ (at character index 11). -/
theorem user_ip_keys_disjoint (uid : Int) (host : String) :
    "rate_limit:user:" ++ toString uid ≠ "rate_limit:ip:" ++ host := by
  intro h
  have hd := congrArg String.data h
  rw [String.data_append, String.data_append] at hd
  have h11 := congrArg (fun l => l[11]?) hd
  simp only [List.getElem?_append] at h11
  simp at h11

/-- Claim C9: with a truthy (nonzero, present) subject id the resolved key is
in the subject scope, otherwise in the network-origin scope; the scopes never
collide — in particular subject id 7 and network origin `"7"` give different
keys — and an `is_allowed` call on either key leaves the other key's
admission window untouched. -/
theorem C9_theorem :
    (∀ (uid : Int), uid ≠ 0 → ∀ r : Request,
      get_rate_limit_key r (some uid) = "rate_limit:user:" ++ toString uid)
    ∧ (∀ r : Request,
      get_rate_limit_key r none = "rate_limit:ip:" ++ r.host)
    ∧ (∀ (uid : Int) (r r2 : Request), uid ≠ 0 →
      get_rate_limit_key r (some uid) ≠ get_rate_limit_key r2 none)
    ∧ (get_rate_limit_key ⟨"7", none⟩ (some 7)
      ≠ get_rate_limit_key ⟨"7", none⟩ none)
    ∧ (∀ (st : Store) (L W : Int) (now : Nat),
      storeAt (RateLimiter.is_allowed (.ok st)
          (get_rate_limit_key ⟨"7", none⟩ (some 7)) L W now).2
        (get_rate_limit_key ⟨"7", none⟩ none)
        = st (get_rate_limit_key ⟨"7", none⟩ none)
      ∧ storeAt (RateLimiter.is_allowed (.ok st)
          (get_rate_limit_key ⟨"7", none⟩ none) L W now).2
        (get_rate_limit_key ⟨"7", none⟩ (some 7))
        = st (get_rate_limit_key ⟨"7", none⟩ (some 7))) := by
  refine ⟨?_, ?_, ?_, ?_, ?_⟩
  · intro uid h r
    simp [get_rate_limit_key, h]
  · intro r
    rfl
  · intro uid r r2 h
    simp only [get_rate_limit_key, if_neg h]
    exact user_ip_keys_disjoint uid r2.host
  · decide
  · intro st L W now
    constructor
    · simp only [RateLimiter.is_allowed, storeAt]
      rw [Function.update_noteq (by decide)]
    · simp only [RateLimiter.is_allowed, storeAt]
      rw [Function.update_noteq (by decide)]

/-- Witness for `C9_theorem`: subject id 7 resolves to the subject-scoped
key, which differs from the key network origin `"7"` resolves to. -/
theorem C9_witness :
    get_rate_limit_key ⟨"7", none⟩ (some 7)
      = "rate_limit:user:" ++ toString (7 : Int)
    ∧ get_rate_limit_key ⟨"7", none⟩ (some 7)
      ≠ get_rate_limit_key ⟨"7", none⟩ none :=
  ⟨C9_theorem.1 7 (by decide) ⟨"7", none⟩,
    C9_theorem.2.2.1 7 ⟨"7", none⟩ ⟨"7", none⟩ (by decide)⟩

/-- Claim C10: when no `Request` appears among the positional arguments, the
`rate_limit` wrapper executes the wrapped function directly — no limiter
consultation, no event recorded, admitted unconditionally; and a
`request.state.user_id` equal to 0 is falsy, so key resolution falls back to
the network-origin scope. -/
theorem C10_theorem :
    (∀ (α : Type) (L W : Int) (func : List Arg → α) (args : List Arg)
      (store : Except Unit Store) (now : Nat),
      findRequest args = none →
      rate_limit L W func args store now = (.ok (func args), store))
    ∧ (∀ r : Request,
      get_rate_limit_key r (some 0) = "rate_limit:ip:" ++ r.host) := by
  constructor
  · intro α L W func args store now h
    simp [rate_limit, h]
  · intro r
    rfl

/-- Witness for `C10_theorem`: a call whose only positional argument is not a
`Request` runs the endpoint directly and leaves the store untouched. -/
theorem C10_witness :
    rate_limit 10 60 (fun _ => (42 : Nat)) [Arg.plain 5] (.ok emptyStore) 0
      = (.ok 42, .ok emptyStore) :=
  C10_theorem.1 Nat 10 60 (fun _ => 42) [Arg.plain 5] (.ok emptyStore) 0 rfl
